import Mathlib

/-!
Shallow embedding of the ilmsdump scraping client (`src/ilmsdump.py`) and
verification of the specified properties of its authenticator, session
store, paginator, course resolution and record extractors.

Python strings are modelled as `List Char` (named `Str`): the client passes
credentials and display names through `str.strip`, which is easiest to
reason about on character lists.  HTML documents are modelled by the
results of the exact xpath queries the code performs, one structure per
page kind, with one field per query.
-/

deriving instance DecidableEq for Except

namespace Ilmsdump

/-- Python strings, as character lists. -/
abbrev Str := List Char

/-- Coerce a Lean string literal to the model's string type. -/
def str (s : String) : Str := s.data

/-- The whitespace test used by Python's `str.strip()` (restricted to the
ASCII whitespace that can occur in the client's data). -/
def isPySpace (c : Char) : Bool := c.isWhitespace

/-- Embedding of Python `str.strip()`: drop whitespace from both ends. -/
def pyStrip (s : Str) : Str :=
  ((s.dropWhile isPySpace).reverse.dropWhile isPySpace).reverse

/-- `true` iff the string has no leading and no trailing whitespace,
i.e. `strip` leaves it unchanged. -/
def noOuterSpace (s : Str) : Bool :=
  (s.head?.all fun a => !isPySpace a) && (s.getLast?.all fun a => !isPySpace a)

/-- The structured payload `json_body['ret']` returned by the login
endpoint: a status flag and, on success, the user's display name. -/
structure LoginRet where
  status : Str
  name : Str
deriving DecidableEq, Repr

/-- The exceptions the client can raise.  `loginFailedRet` and
`loginFailedMsg` are the two forms of `LoginFailed` (payload-carrying and
message-carrying); `valueError` covers Python's tuple-unpacking and
`int()` failures, `keyError` the missing-query-parameter failure of
`qs_get`, and `assertionError` a failed `assert`. -/
inductive PyError where
  | loginFailedRet (ret : LoginRet)
  | loginFailedMsg (msg : Str)
  | cannotUnderstand (what : Str) (detail : Str)
  | userError (msg : Str)
  | assertionError
  | keyError (key : Str)
  | valueError (msg : Str)
deriving DecidableEq, Repr

/-- Is this error one of the two `LoginFailed` forms? -/
def PyError.isLoginFailed : PyError → Bool
  | .loginFailedRet _ => true
  | .loginFailedMsg _ => true
  | _ => false

/-- Is this error a `CannotUnderstand`? -/
def PyError.isCannotUnderstand : PyError → Bool
  | .cannotUnderstand _ _ => true
  | _ => false

/-- Is this error a `UserError`? -/
def PyError.isUserError : PyError → Bool
  | .userError _ => true
  | _ => false

/-- Embedding of Python's single-element tuple unpacking `(x,) = lst`:
succeeds only on one-element lists, otherwise raises `ValueError`. -/
def unpack1 {α : Type} : List α → Except PyError α
  | [a] => .ok a
  | _ => .error (.valueError (str "unpack"))

/-- A URL, reduced to its parsed query string: the list of
(key, value) pairs in order.  `urllib.parse.parse_qs` groups repeated
keys; indexing `[0]` takes the first occurrence, i.e. `List.lookup`. -/
abbrev Url := List (Str × Str)

/-- Embedding of `qs_get`: the first value of `key` in the URL's query
string, raising `KeyError` when the key is absent. -/
def qs_get (url : Url) (key : Str) : Except PyError Str :=
  match url.lookup key with
  | some v => .ok v
  | none => .error (.keyError key)

/-- Digit-string accumulator for `pyInt`. -/
def parseDigitsAux : List Char → Nat → Option Nat
  | [], acc => some acc
  | c :: l, acc =>
      if '0' ≤ c ∧ c ≤ '9' then parseDigitsAux l (acc * 10 + (c.toNat - '0'.toNat))
      else none

/-- A nonempty all-digit string, as a number. -/
def parseDigits : List Char → Option Nat
  | [] => none
  | l => parseDigitsAux l 0

/-- Embedding of Python `int(s)` on the strings the portal produces:
surrounding whitespace ignored, optional sign, then decimal digits;
anything else raises `ValueError`. -/
def pyInt (s : Str) : Except PyError Int :=
  match pyStrip s with
  | '-' :: ds =>
      match parseDigits ds with
      | some n => .ok (-(n : Int))
      | none => .error (.valueError (str "invalid literal for int"))
  | '+' :: ds =>
      match parseDigits ds with
      | some n => .ok (n : Int)
      | none => .error (.valueError (str "invalid literal for int"))
  | ds =>
      match parseDigits ds with
      | some n => .ok (n : Int)
      | none => .error (.valueError (str "invalid literal for int"))

/-- The `Course` dataclass. -/
structure Course where
  id : Int
  name : Str
  is_admin : Bool
deriving DecidableEq, Repr

/-- The `Announcement` dataclass. -/
structure Announcement where
  id : Int
  title : Str
  course : Course
deriving DecidableEq, Repr

/-- The `Material` dataclass. -/
structure Material where
  id : Int
  title : Str
  type : Str
  course : Course
deriving DecidableEq, Repr

/-- The `Discussion` dataclass. -/
structure Discussion where
  id : Int
  title : Str
  course : Course
deriving DecidableEq, Repr

/-- The `Homework` dataclass. -/
structure Homework where
  id : Int
  title : Str
  course : Course
deriving DecidableEq, Repr

/-! ## The session probe (`get_login_state`) -/

/-- The response body of the probe page `home.php`, reduced to the two
xpath queries `get_login_state` performs on it: whether
`//*[@id="login"]` matched anything, and the text nodes found at
`//*[@id="profile"]/div[2]/div[1]/text()`. -/
structure LoginStatePage where
  loginElems : Bool
  profileTexts : List Str
deriving DecidableEq, Repr

/-- Embedding of `ILMSClient.get_login_state`: when the xpath for the
element with id `login` matches nothing the function returns `None`;
otherwise it asserts that the profile text nodes are nonempty and returns
their concatenation, stripped.  `Except.ok none` is the "not logged in"
outcome. -/
def get_login_state (page : LoginStatePage) : Except PyError (Option Str) :=
  if !page.loginElems then .ok none
  else if page.profileTexts.isEmpty then .error .assertionError
  else .ok (some (pyStrip page.profileTexts.flatten))

/-! ## Authentication entry points -/

/-- Embedding of `ILMSClient.login_with_username_and_password`, as a
function of the portal's decoded `ret` payload for the submitted
credentials.  A non-`"true"` status raises `LoginFailed` carrying the
payload; on success the function logs (returns) `ret['name']`. -/
def login_with_username_and_password (ret : LoginRet) : Except PyError Str :=
  if ret.status ≠ str "true" then .error (.loginFailedRet ret)
  else .ok ret.name

/-- Embedding of `ILMSClient.login_with_phpsessid`, as a function of the
probe page the portal serves once the `PHPSESSID` cookie is set: a probe
of `None` raises `LoginFailed`, otherwise the function logs (returns) the
probed name. -/
def login_with_phpsessid (page : LoginStatePage) : Except PyError Str :=
  match get_login_state page with
  | .error e => .error e
  | .ok (some name) => .ok name
  | .ok none => .error (.loginFailedMsg (str "cannot login with provided PHPSESSID"))

/-! ## The session store

The store is the single file `credentials.txt`: `none` models an absent
file, `some contents` a file holding `contents`. -/

/-- The credentials file: absent, or present with the given contents. -/
abbrev Store := Option Str

/-- Embedding of the save in `ensure_authenticated`:
`print(token, file=open(cred_path, 'w'))` truncates the file and writes
the token followed by a newline. -/
def store_save (cred : Str) (_s : Store) : Store :=
  some (cred ++ str "\n")

/-- Embedding of the load in `ensure_authenticated`:
`open(cred_path).read().strip()`, or absent when the file does not
exist. -/
def store_load (s : Store) : Option Str :=
  s.map pyStrip

/-- Embedding of `ILMSClient.clear_credentials`: `os.remove`, returning
`true` iff the file existed, together with the resulting store. -/
def clear_credentials (s : Store) : Bool × Store :=
  match s with
  | none => (false, none)
  | some _ => (true, none)

/-- The observable file states of an in-progress save, for reasoning
about interrupted writes: the state before `open`, the truncated file
that `open(cred_path, 'w')` leaves, and every prefix of the final
contents that a partially flushed `print` can leave behind. -/
def save_write_states (cred : Str) (s : Store) : List Store :=
  s :: (List.range (cred.length + 2)).map (fun k => some ((cred ++ str "\n").take k))

/-! ## `ensure_authenticated` -/

/-- What the user types at the interactive prompt: either a
username/password pair, or an empty username followed by a raw
`PHPSESSID` token. -/
inductive InteractiveChoice where
  | credentials (u p : Str)
  | sessid (t : Str)
deriving DecidableEq, Repr

/-- The outcome of `ensure_authenticated`: the propagated result (on
success the `PHPSESSID` token now active in the cookie jar, i.e. the
logged-in session), the final state of the credentials file, and whether
the interactive login flow ran. -/
structure AuthOutcome where
  result : Except PyError Str
  store : Store
  usedInteractive : Bool
deriving Repr

/-- Embedding of `ILMSClient.ensure_authenticated`.  The portal is
modelled by three functions: `portalRet u p` is the login endpoint's
decoded `ret` payload for a credential pair, `portalCookie u p` the
`PHPSESSID` cookie its response sets (if any), and `probePage t` the
probe page served when the `PHPSESSID` cookie holds `t`.

If the credentials file exists, its stripped contents are adopted via
`login_with_phpsessid` and nothing is written.  Otherwise the
interactive flow runs and, on success, the cookie jar's `PHPSESSID`
value is printed to the file (reading it raises `KeyError` when no such
cookie exists). -/
def ensure_authenticated (store : Store) (choice : InteractiveChoice)
    (portalRet : Str → Str → LoginRet) (portalCookie : Str → Str → Option Str)
    (probePage : Str → LoginStatePage) : AuthOutcome :=
  match store with
  | some contents =>
      let phpsessid := pyStrip contents
      match login_with_phpsessid (probePage phpsessid) with
      | .ok _ => ⟨.ok phpsessid, some contents, false⟩
      | .error e => ⟨.error e, some contents, false⟩
  | none =>
      match choice with
      | .credentials u p =>
          match login_with_username_and_password (portalRet u p) with
          | .error e => ⟨.error e, none, true⟩
          | .ok _ =>
              match portalCookie u p with
              | none => ⟨.error (.keyError (str "PHPSESSID")), none, true⟩
              | some t => ⟨.ok t, store_save t none, true⟩
      | .sessid t =>
          match login_with_phpsessid (probePage t) with
          | .error e => ⟨.error e, none, true⟩
          | .ok _ => ⟨.ok t, store_save t none, true⟩

/-! ## Course lookup (`get_course`) -/

/-- The response to the course lookup request, reduced to what
`get_course` inspects: whether the body is empty, the text nodes at
`//div[@class="infoPath"]/a/text()`, whether `//a[@href="javascript:add()"]`
matched, and the path of the final (post-redirect) URL. -/
structure CourseResponse where
  bodyEmpty : Bool
  infoPathTexts : List Str
  hasAddLink : Bool
  urlPath : Str
deriving DecidableEq, Repr

/-- The `UserError` message for an empty course-lookup response. -/
def emptyCourseMsg (course_id : Int) : Str :=
  str "Empty response returned for course, the course probably doesn't exist: course_id="
    ++ (toString course_id).data

/-- The `UserError` message for a lookup redirected to the course-login
gate (the f-string interpolates the dataclass; its identifying fields
are what matter here). -/
def noAccessMsg (c : Course) : Str :=
  str "No access to course: Course(id=" ++ (toString c.id).data
    ++ str ", name=" ++ c.name
    ++ str ", is_admin=" ++ (toString c.is_admin).data ++ str ")"

/-- Embedding of `ILMSClient.get_course`: an empty body raises
`UserError`; otherwise the breadcrumb text is unpacked (exactly one
node), the course built with the admin flag from the "add" control, and
a final URL at `/course_login.php` raises the no-access `UserError`
before the course is returned. -/
def get_course (course_id : Int) (r : CourseResponse) : Except PyError Course :=
  if r.bodyEmpty then .error (.userError (emptyCourseMsg course_id))
  else
    match unpack1 r.infoPathTexts with
    | .error e => .error e
    | .ok name =>
        let course : Course := ⟨course_id, name, r.hasAddLink⟩
        if r.urlPath = str "/course_login.php" then
          .error (.userError (noAccessMsg course))
        else .ok course

/-! ## The paginator (`_response_paginator`) -/

/-- A fetched listing page, reduced to what the paginator inspects of
it: the hrefs matched by `//span[@class="page"]//a[text()="Next"]/@href`. -/
structure PagPage where
  nextHrefs : List Url
deriving Repr

/-- How a pagination run ends: the stream terminated normally, an
exception was raised, or the modelling fuel ran out before either. -/
inductive PagOutcome where
  | ended
  | failed (e : PyError)
  | fuelOut
deriving DecidableEq, Repr

/-- The observable trace of a pagination run.  Each loop iteration
performs exactly one page fetch immediately followed by one yield, so
`yielded` is both the list of yielded pages and the list of fetched page
numbers, in request order. -/
structure PagTrace where
  yielded : List Nat
  outcome : PagOutcome
deriving DecidableEq, Repr

/-- The per-page continuation step of the paginator:
`int(qs_get(next_hrefs[0], 'page'))` when the "Next" link list is
nonempty, `none` when it is absent (last page). -/
def nextPageNum (pg : PagPage) : Option (Except PyError Int) :=
  match pg.nextHrefs with
  | [] => none
  | href :: _ =>
      match qs_get href (str "page") with
      | .error e => some (.error e)
      | .ok s => some (pyInt s)

/-- Embedding of `ILMSClient._response_paginator`.  `fetch p` is the
parsed body the portal serves for `page=p` (same URL and other query
parameters throughout the stream).  For each page: fetch, yield, then
look for the "Next" link; stop if absent, otherwise decode its `page`
query parameter, `assert page + 1 == next_page`, and continue with the
next page number.  Recursion is by fuel; exhausting it stands for the
run being truncated, not for any behaviour of the code. -/
def paginate (fetch : Nat → PagPage) : Nat → Nat → PagTrace
  | 0, _ => ⟨[], .fuelOut⟩
  | fuel + 1, page =>
      match nextPageNum (fetch page) with
      | none => ⟨[page], .ended⟩
      | some (.error e) => ⟨[page], .failed e⟩
      | some (.ok n) =>
          if ((page : Int) + 1) = n then
            let rest := paginate fetch fuel (page + 1)
            ⟨page :: rest.yielded, rest.outcome⟩
          else ⟨[page], .failed .assertionError⟩

/-- Page `k` of the stream carries a "Next" link whose query string
decodes to page `k + 1`: the shape the portal's pagination contract
promises. -/
def wellLinked (fetch : Nat → PagPage) (k : Nat) : Prop :=
  nextPageNum (fetch k) = some (.ok ((k : Int) + 1))

/-- Page `p` carries a "Next" link that decodes to some page number
other than `p + 1`: a violation of the pagination contract. -/
def mismatchAt (fetch : Nat → PagPage) (p : Nat) : Prop :=
  ∃ n, nextPageNum (fetch p) = some (.ok n) ∧ n ≠ (p : Int) + 1

/-! ## Record extractors -/

/-- Sequential extraction over the items selected on one page; the first
raised exception aborts the page, exactly as the generator loop does. -/
def mapExcept {α β : Type} (f : α → Except PyError β) : List α → Except PyError (List β)
  | [] => .ok []
  | a :: l =>
      match f a with
      | .error e => .error e
      | .ok b =>
          match mapExcept f l with
          | .error e => .error e
          | .ok bs => .ok (b :: bs)

/-- One row matched by `//*[@id="main"]//tr[@class!="header"]` on an
announcements (`f=news`) page: the hrefs at `td[1]/a/@href` and the text
nodes at `td[2]//a/text()`. -/
structure NewsRow where
  hrefs : List Url
  titles : List Str
deriving Repr

/-- One row of a discussions (`f=forumlist`) page: hrefs at
`td[1]/a/@href` and texts at `td[2]//a/span/text()`. -/
structure ForumRow where
  hrefs : List Url
  spanTitles : List Str
deriving Repr

/-- An anchor matched by `td[2]/div/a` on a materials (`f=doclist`)
page, with its enclosing `div`'s class attribute. -/
structure MatAnchor where
  href : Url
  text : Str
  parentClass : Str
deriving Repr

/-- One row of a materials page: the anchors its `td[2]/div` holds
(possibly none, in which case the row matches no xpath result at all). -/
structure MatRow where
  anchors : List MatAnchor
deriving Repr

/-- An anchor matched by `td[2]/a[1]` on a homework (`f=hwlist`) page. -/
structure HwAnchor where
  href : Url
  text : Str
deriving Repr

/-- One row of a homework page: its first `td[2]` anchor, when there is
one (`a[1]` matches nothing otherwise and the row is not selected). -/
structure HwRow where
  firstAnchor : Option HwAnchor
deriving Repr

/-- Extraction of one announcements row: unpack the single href, unpack
the single title, then decode `newsID` from the href's query string. -/
def extractNewsRow (course : Course) (tr : NewsRow) : Except PyError Announcement :=
  match unpack1 tr.hrefs with
  | .error e => .error e
  | .ok href =>
      match unpack1 tr.titles with
      | .error e => .error e
      | .ok title =>
          match qs_get href (str "newsID") with
          | .error e => .error e
          | .ok s =>
              match pyInt s with
              | .error e => .error e
              | .ok i => .ok ⟨i, title, course⟩

/-- Embedding of one page of `Course.get_announcements`: the selected
rows, extracted in document order. -/
def get_announcements (course : Course) (rows : List NewsRow) :
    Except PyError (List Announcement) :=
  mapExcept (extractNewsRow course) rows

/-- Extraction of one discussions row (`tid` parameter, span title). -/
def extractForumRow (course : Course) (tr : ForumRow) : Except PyError Discussion :=
  match unpack1 tr.hrefs with
  | .error e => .error e
  | .ok href =>
      match unpack1 tr.spanTitles with
      | .error e => .error e
      | .ok title =>
          match qs_get href (str "tid") with
          | .error e => .error e
          | .ok s =>
              match pyInt s with
              | .error e => .error e
              | .ok i => .ok ⟨i, title, course⟩

/-- Embedding of one page of `Course.get_discussions`. -/
def get_discussions (course : Course) (rows : List ForumRow) :
    Except PyError (List Discussion) :=
  mapExcept (extractForumRow course) rows

/-- Extraction of one selected materials anchor: decode `cid` from its
href, take its text as title and its parent's class as type tag. -/
def extractMatAnchor (course : Course) (a : MatAnchor) : Except PyError Material :=
  match qs_get a.href (str "cid") with
  | .error e => .error e
  | .ok s =>
      match pyInt s with
      | .error e => .error e
      | .ok i => .ok ⟨i, a.text, a.parentClass, course⟩

/-- Embedding of one page of `Course.get_materials`: the xpath
`tr[@class!="header"]/td[2]/div/a` flattens the per-row anchors in
document order; rows without such an anchor contribute nothing. -/
def get_materials (course : Course) (rows : List MatRow) :
    Except PyError (List Material) :=
  mapExcept (extractMatAnchor course) (rows.flatMap (fun tr => tr.anchors))

/-- Extraction of one selected homework anchor (`hw` parameter). -/
def extractHwAnchor (course : Course) (a : HwAnchor) : Except PyError Homework :=
  match qs_get a.href (str "hw") with
  | .error e => .error e
  | .ok s =>
      match pyInt s with
      | .error e => .error e
      | .ok i => .ok ⟨i, a.text, course⟩

/-- Embedding of one page of `Course.get_homeworks`: `td[2]/a[1]`
selects each row's first anchor when it exists; rows without one are not
selected. -/
def get_homeworks (course : Course) (rows : List HwRow) :
    Except PyError (List Homework) :=
  mapExcept (extractHwAnchor course) (rows.filterMap (fun tr => tr.firstAnchor))

/-! ## Helper lemmas -/

/-- `dropWhile` is the identity on a list whose head (if any) fails the
predicate. -/
theorem dropWhile_of_head_false (p : Char → Bool) (l : List Char)
    (h : l.head?.all (fun a => !p a) = true) : l.dropWhile p = l := by
  cases l with
  | nil => rfl
  | cons a t =>
      simp only [List.head?_cons, Option.all_some, Bool.not_eq_true'] at h
      rw [List.dropWhile_cons, if_neg (by simp [h])]

/-- Stripping after appending a newline recovers a string with no outer
whitespace. -/
theorem pyStrip_append_newline (s : Str) (h : noOuterSpace s = true) :
    pyStrip (s ++ str "\n") = s := by
  cases s with
  | nil => decide
  | cons a t =>
      have hh : isPySpace a = false := by
        have := (Bool.and_eq_true _ _).mp h |>.1
        simpa [Option.all_some, Bool.not_eq_true'] using this
      have hl : ((a :: t).getLast?.all fun c => !isPySpace c) = true :=
        (Bool.and_eq_true _ _).mp h |>.2
      unfold pyStrip
      have h1 : ((a :: t) ++ str "\n").dropWhile isPySpace = (a :: t) ++ str "\n" := by
        rw [List.cons_append, List.dropWhile_cons, if_neg (by simp [hh])]
      rw [h1]
      have h2 : ((a :: t) ++ str "\n").reverse = '\n' :: (a :: t).reverse := by
        simp [str]
      rw [h2, List.dropWhile_cons, if_pos (by decide)]
      have h3 : ((a :: t).reverse).dropWhile isPySpace = (a :: t).reverse := by
        apply dropWhile_of_head_false
        rw [List.head?_reverse]
        exact hl
      rw [h3, List.reverse_reverse]

/-- A string with no outer whitespace strips to itself. -/
theorem pyStrip_of_noOuterSpace (s : Str) (h : noOuterSpace s = true) :
    pyStrip s = s := by
  have hh := (Bool.and_eq_true _ _).mp h |>.1
  have hl := (Bool.and_eq_true _ _).mp h |>.2
  unfold pyStrip
  rw [dropWhile_of_head_false _ _ hh]
  have h3 : (s.reverse).dropWhile isPySpace = s.reverse := by
    apply dropWhile_of_head_false
    rw [List.head?_reverse]
    exact hl
  rw [h3, List.reverse_reverse]

/-- Probe body without the `login` element: the probe reports "not
logged in". -/
theorem gls_not_logged_in (page : LoginStatePage) (h : page.loginElems = false) :
    get_login_state page = .ok none := by
  simp [get_login_state, h]

/-- Probe body with the `login` element but no profile text: the
`assert` fails. -/
theorem gls_assert (page : LoginStatePage) (h : page.loginElems = true)
    (h2 : page.profileTexts = []) :
    get_login_state page = .error .assertionError := by
  simp [get_login_state, h, h2]

/-- Probe body with the `login` element and profile text: the probe
returns the joined, stripped profile text. -/
theorem gls_name (page : LoginStatePage) (h : page.loginElems = true)
    (h2 : page.profileTexts ≠ []) :
    get_login_state page = .ok (some (pyStrip page.profileTexts.flatten)) := by
  simp [get_login_state, h, List.isEmpty_iff, h2]

/-- An accepted `ret` payload logs the payload's name. -/
theorem lwup_ok (ret : LoginRet) (h : ret.status = str "true") :
    login_with_username_and_password ret = .ok ret.name := by
  simp [login_with_username_and_password, h]

/-- A rejected `ret` payload raises `LoginFailed` carrying the payload. -/
theorem lwup_fail (ret : LoginRet) (h : ret.status ≠ str "true") :
    login_with_username_and_password ret = .error (.loginFailedRet ret) := by
  simp [login_with_username_and_password, h]

/-- A probe that reports a name makes `login_with_phpsessid` succeed
with that name. -/
theorem lwp_of_some (page : LoginStatePage) (name : Str)
    (h : get_login_state page = .ok (some name)) :
    login_with_phpsessid page = .ok name := by
  simp [login_with_phpsessid, h]

/-- A probe that reports "not logged in" makes `login_with_phpsessid`
raise `LoginFailed`. -/
theorem lwp_of_none (page : LoginStatePage)
    (h : get_login_state page = .ok none) :
    login_with_phpsessid page =
      .error (.loginFailedMsg (str "cannot login with provided PHPSESSID")) := by
  simp [login_with_phpsessid, h]

/-! ## C1: the session probe -/

/-- C1 (counterexample): the claim inverts the code's test.  On a probe
body that does contain the element with id `login` and a profile text,
`get_login_state` does not report "not logged in" but returns the
profile name; and on a body without that element it reports "not logged
in" rather than extracting a name or failing. -/
theorem get_login_state_claim_cex :
    get_login_state ⟨true, [str "User"]⟩ = .ok (some (str "User")) ∧
    get_login_state ⟨true, [str "User"]⟩ ≠ .ok none ∧
    get_login_state ⟨false, [str "User"]⟩ = .ok none := by
  decide

/-- C1 (amended): `get_login_state` reports "not logged in" exactly when
the probe body lacks the element with id `login`; when that element is
present it returns the joined, stripped profile text, and raises an
`assert` failure (not `CannotUnderstand`) when the profile text nodes
are absent. -/
theorem get_login_state_spec (page : LoginStatePage) :
    (page.loginElems = false → get_login_state page = .ok none) ∧
    (page.loginElems = true → page.profileTexts = [] →
      get_login_state page = .error .assertionError) ∧
    (page.loginElems = true → page.profileTexts ≠ [] →
      get_login_state page = .ok (some (pyStrip page.profileTexts.flatten))) := by
  refine ⟨fun h => ?_, fun h h2 => ?_, fun h h2 => ?_⟩
  · simp [get_login_state, h]
  · simp [get_login_state, h, h2]
  · simp [get_login_state, h, List.isEmpty_iff, h2]

/-- C1 (witness): the three amended cases at concrete probe bodies. -/
theorem get_login_state_spec_witness :
    get_login_state ⟨false, []⟩ = .ok none ∧
    get_login_state ⟨true, []⟩ = .error .assertionError ∧
    get_login_state ⟨true, [str " User "]⟩ = .ok (some (str "User")) := by
  refine ⟨(get_login_state_spec ⟨false, []⟩).1 rfl,
    (get_login_state_spec ⟨true, []⟩).2.1 rfl rfl, ?_⟩
  have h := (get_login_state_spec ⟨true, [str " User "]⟩).2.2 rfl (by decide)
  rw [h]
  decide

/-! ## C2, C3: the paginator -/

/-- Unfolding: a page without a "Next" link ends the stream. -/
theorem paginate_succ_none (fetch : Nat → PagPage) (fuel page : Nat)
    (h : nextPageNum (fetch page) = none) :
    paginate fetch (fuel + 1) page = ⟨[page], .ended⟩ := by
  rw [paginate, h]

/-- Unfolding: a "Next" link whose decoding raises propagates that
error after the yield. -/
theorem paginate_succ_error (fetch : Nat → PagPage) (fuel page : Nat) (e : PyError)
    (h : nextPageNum (fetch page) = some (.error e)) :
    paginate fetch (fuel + 1) page = ⟨[page], .failed e⟩ := by
  rw [paginate, h]

/-- Unfolding: a decoded "Next" page number is checked against
`page + 1` before the stream continues. -/
theorem paginate_succ_ok (fetch : Nat → PagPage) (fuel page : Nat) (n : Int)
    (h : nextPageNum (fetch page) = some (.ok n)) :
    paginate fetch (fuel + 1) page =
      if ((page : Int) + 1) = n then
        ⟨page :: (paginate fetch fuel (page + 1)).yielded,
         (paginate fetch fuel (page + 1)).outcome⟩
      else ⟨[page], .failed .assertionError⟩ := by
  rw [paginate, h]

/-- Every page number a pagination run touches is at least its starting
page: the loop only counts upward. -/
theorem paginate_start_le (fetch : Nat → PagPage) :
    ∀ fuel s q, q ∈ (paginate fetch fuel s).yielded → s ≤ q := by
  intro fuel
  induction fuel with
  | zero => intro s q hq; simp [paginate] at hq
  | succ fuel ih =>
      intro s q hq
      cases hn : nextPageNum (fetch s) with
      | none =>
          rw [paginate_succ_none fetch fuel s hn] at hq
          simp at hq
          omega
      | some r =>
          cases r with
          | error e =>
              rw [paginate_succ_error fetch fuel s e hn] at hq
              simp at hq
              omega
          | ok n =>
              rw [paginate_succ_ok fetch fuel s n hn] at hq
              by_cases hc : ((s : Int) + 1) = n
              · rw [if_pos hc] at hq
                simp at hq
                rcases hq with hq | hq
                · omega
                · have := ih (s + 1) q hq
                  omega
              · rw [if_neg hc] at hq
                simp at hq
                omega

/-- C2 (confirmed): if a pagination run reaches a page whose "Next" link
decodes to a page number other than the current page plus one, the run
ends in the `assert` failure and fetches nothing beyond that page. -/
theorem paginate_mismatch_halts (fetch : Nat → PagPage) (fuel start p : Nat)
    (hmem : p ∈ (paginate fetch fuel start).yielded)
    (hmis : mismatchAt fetch p) :
    (paginate fetch fuel start).outcome = .failed .assertionError ∧
    ∀ q ∈ (paginate fetch fuel start).yielded, q ≤ p := by
  obtain ⟨n, hn, hne⟩ := hmis
  induction fuel generalizing start with
  | zero => simp [paginate] at hmem
  | succ fuel ih =>
      by_cases hsp : start = p
      · subst hsp
        rw [paginate_succ_ok fetch fuel start n hn, if_neg (fun h => hne h.symm)]
        refine ⟨rfl, ?_⟩
        intro q hq
        simp at hq
        omega
      · cases hs : nextPageNum (fetch start) with
        | none =>
            rw [paginate_succ_none fetch fuel start hs] at hmem
            simp at hmem
            omega
        | some r =>
            cases r with
            | error e =>
                rw [paginate_succ_error fetch fuel start e hs] at hmem
                simp at hmem
                omega
            | ok m =>
                rw [paginate_succ_ok fetch fuel start m hs] at hmem ⊢
                by_cases hc : ((start : Int) + 1) = m
                · rw [if_pos hc] at hmem ⊢
                  simp only [List.mem_cons] at hmem
                  rcases hmem with hmem | hmem
                  · omega
                  · have hrec := ih (start + 1) hmem
                    refine ⟨hrec.1, ?_⟩
                    intro q hq
                    simp only [List.mem_cons] at hq
                    rcases hq with hq | hq
                    · have := paginate_start_le fetch fuel (start + 1) p hmem
                      omega
                    · exact hrec.2 q hq
                · rw [if_neg hc] at hmem
                  simp at hmem
                  omega

/-- C2 (witness): a stream whose first page links to page 3 instead of
page 2 stops at the assertion after the single fetch. -/
theorem paginate_mismatch_halts_witness :
    (paginate (fun _ => ⟨[[(str "page", str "3")]]⟩) 5 1).outcome =
        .failed .assertionError ∧
    (paginate (fun _ => ⟨[[(str "page", str "3")]]⟩) 5 1).yielded = [1] := by
  have h := paginate_mismatch_halts (fun _ => ⟨[[(str "page", str "3")]]⟩) 5 1 1
    (by decide) ⟨3, by decide, by decide⟩
  exact ⟨h.1, by decide⟩

/-- A well-linked run from page `s` to the final page `N` yields exactly
the pages `s, s+1, …, N` and ends, given enough fuel. -/
theorem paginate_runs_from (fetch : Nat → PagPage) (N : Nat)
    (hlink : ∀ k, 1 ≤ k → k < N → wellLinked fetch k)
    (hlast : nextPageNum (fetch N) = none) :
    ∀ fuel s, 1 ≤ s → s ≤ N → N + 1 - s ≤ fuel →
      paginate fetch fuel s = ⟨List.range' s (N + 1 - s), .ended⟩ := by
  intro fuel
  induction fuel with
  | zero => intro s h1 h2 h3; omega
  | succ fuel ih =>
      intro s h1 h2 h3
      by_cases hsN : s = N
      · subst hsN
        rw [paginate_succ_none fetch fuel s hlast]
        have hN1 : s + 1 - s = 1 := by omega
        rw [hN1]
        rfl
      · have hsltN : s < N := by omega
        have hw := hlink s h1 hsltN
        rw [paginate_succ_ok fetch fuel s _ hw, if_pos rfl]
        have hrec := ih (s + 1) (by omega) (by omega) (by omega)
        rw [hrec]
        have hsub2 : N + 1 - (s + 1) = N - s := by omega
        have hsub : N + 1 - s = (N - s) + 1 := by omega
        rw [hsub2, hsub]
        rfl

/-- C3 (confirmed): a page sequence of length `N` whose pages `1..N-1`
each carry a well-formed "Next" link to the following page and whose
page `N` carries none yields exactly pages `1..N` in ascending order,
each fetched exactly once, never fetches page `N + 1`, and then ends. -/
theorem paginate_complete (fetch : Nat → PagPage) (N : Nat) (hN : 1 ≤ N)
    (hlink : ∀ k, 1 ≤ k → k < N → wellLinked fetch k)
    (hlast : nextPageNum (fetch N) = none)
    (fuel : Nat) (hfuel : N ≤ fuel) :
    (paginate fetch fuel 1).yielded = List.range' 1 N ∧
    (paginate fetch fuel 1).outcome = .ended ∧
    (paginate fetch fuel 1).yielded.length = N ∧
    (paginate fetch fuel 1).yielded.Nodup ∧
    (paginate fetch fuel 1).yielded.Pairwise (· < ·) ∧
    (N + 1) ∉ (paginate fetch fuel 1).yielded := by
  have h := paginate_runs_from fetch N hlink hlast fuel 1 (le_refl 1) hN (by omega)
  have h1 : N + 1 - 1 = N := by omega
  rw [h1] at h
  rw [h]
  refine ⟨rfl, rfl, by simp, List.nodup_range' _ _, List.pairwise_lt_range' _ _, ?_⟩
  rw [List.mem_range'_1]
  omega

/-- C3 (witness): a two-page stub stream (page 1 links to page 2, page 2
has no "Next") yields pages 1 and 2 and ends. -/
theorem paginate_complete_witness :
    (paginate (fun n => if n = 1 then (⟨[[(str "page", str "2")]]⟩ : PagPage) else ⟨[]⟩)
        2 1).yielded = [1, 2] ∧
    (paginate (fun n => if n = 1 then (⟨[[(str "page", str "2")]]⟩ : PagPage) else ⟨[]⟩)
        2 1).outcome = .ended := by
  have h := paginate_complete
    (fun n => if n = 1 then (⟨[[(str "page", str "2")]]⟩ : PagPage) else ⟨[]⟩) 2
    (by omega)
    (fun k hk1 hk2 => by
      have hk : k = 1 := by omega
      subst hk
      unfold wellLinked
      decide)
    (by decide) 2 (le_refl 2)
  refine ⟨?_, h.2.1⟩
  rw [h.1]
  rfl

/-! ## C6, C9: the session store -/

/-- C6 (counterexample): the round-trip fails on a credential with
trailing whitespace — `save` writes the raw token plus a newline but
`load` strips, so `load` after `save "a "` returns `"a"`, not `"a "`. -/
theorem store_roundtrip_cex :
    store_load (store_save (str "a ") none) = some (str "a") ∧
    store_load (store_save (str "a ") none) ≠ some (str "a ") := by
  decide

/-- C6 (amended): for every credential without leading or trailing
whitespace, save-then-load returns it unchanged; `clear` after a save
returns true and leaves nothing to load; `clear` on an empty store
returns false. -/
theorem store_spec (cred : Str) (s : Store) (h : noOuterSpace cred = true) :
    store_load (store_save cred s) = some cred ∧
    (clear_credentials (store_save cred s)).1 = true ∧
    store_load (clear_credentials (store_save cred s)).2 = none ∧
    (clear_credentials none).1 = false := by
  refine ⟨?_, rfl, rfl, rfl⟩
  show some (pyStrip (cred ++ str "\n")) = some cred
  rw [pyStrip_append_newline cred h]

/-- C6 (witness): the amended round-trip at a concrete token. -/
theorem store_spec_witness :
    store_load (store_save (str "token") none) = some (str "token") ∧
    (clear_credentials (store_save (str "token") none)).1 = true ∧
    store_load (clear_credentials (store_save (str "token") none)).2 = none ∧
    (clear_credentials none).1 = false :=
  store_spec (str "token") none (by decide)

/-- C9 (counterexample): the save is a direct truncate-and-write, not
write-to-temp-then-rename: interrupting the save of `"new"` over a
store holding `"old"` can leave the file holding `"ne"`, and the next
load observes that corrupted credential (neither the old one, nor the
new one, nor an absent store). -/
theorem save_atomicity_cex :
    some (str "ne") ∈ save_write_states (str "new") (some (str "old\n")) ∧
    store_load (some (str "ne")) = some (str "ne") ∧
    store_load (some (str "ne")) ≠ store_load (some (str "old\n")) ∧
    store_load (some (str "ne")) ≠ some (str "new") ∧
    store_load (some (str "ne")) ≠ none := by
  decide

/-- C9 (amended): saving overwrites the credentials file in place
(truncate, then write), so interrupting any save of a nonempty
credential over a store that does not load as empty leaves an
observable intermediate state whose load is corrupted: neither the old
loaded credential, nor the new one, nor absent. -/
theorem save_not_atomic (cred : Str) (s : Store)
    (hc : cred ≠ []) (hs : store_load s ≠ some []) :
    ∃ st ∈ save_write_states cred s,
      store_load st ≠ store_load s ∧
      store_load st ≠ some cred ∧
      store_load st ≠ none := by
  refine ⟨some [], ?_, ?_, ?_, ?_⟩
  · exact List.mem_cons_of_mem _
      (List.mem_map.mpr ⟨0, List.mem_range.mpr (by omega), rfl⟩)
  · intro h
    exact hs h.symm
  · intro h
    exact hc (by simpa [store_load, pyStrip] using h)
  · intro h
    simp [store_load] at h

/-- C9 (witness): the non-atomicity of the save at a concrete old store
and new credential. -/
theorem save_not_atomic_witness :
    ∃ st ∈ save_write_states (str "new") (some (str "old\n")),
      store_load st ≠ store_load (some (str "old\n")) ∧
      store_load st ≠ some (str "new") ∧
      store_load st ≠ none :=
  save_not_atomic (str "new") (some (str "old\n")) (by decide) (by decide)

/-! ## C7: the two login entry points -/

/-- C7 (confirmed): an accepted credential exchange logs the name from
the portal's success payload and a rejected one raises `LoginFailed`
carrying the payload; an accepted session token (probe reports a name)
makes `login_with_phpsessid` succeed with the probed name and a
rejected one (probe reports "not logged in") raises `LoginFailed`. -/
theorem login_entry_points_spec :
    (∀ ret : LoginRet, ret.status = str "true" →
      login_with_username_and_password ret = .ok ret.name) ∧
    (∀ ret : LoginRet, ret.status ≠ str "true" →
      login_with_username_and_password ret = .error (.loginFailedRet ret)) ∧
    (∀ (page : LoginStatePage) (name : Str),
      get_login_state page = .ok (some name) →
      login_with_phpsessid page = .ok name) ∧
    (∀ page : LoginStatePage, get_login_state page = .ok none →
      login_with_phpsessid page =
        .error (.loginFailedMsg (str "cannot login with provided PHPSESSID"))) :=
  ⟨lwup_ok, lwup_fail, lwp_of_some, lwp_of_none⟩

/-- C7 (witness): the four cases at concrete payloads and probe
bodies. -/
theorem login_entry_points_spec_witness :
    login_with_username_and_password ⟨str "true", str "Alice"⟩ = .ok (str "Alice") ∧
    login_with_username_and_password ⟨str "false", str "Alice"⟩ =
      .error (.loginFailedRet ⟨str "false", str "Alice"⟩) ∧
    login_with_phpsessid ⟨true, [str "Bob"]⟩ = .ok (str "Bob") ∧
    login_with_phpsessid ⟨false, []⟩ =
      .error (.loginFailedMsg (str "cannot login with provided PHPSESSID")) :=
  ⟨login_entry_points_spec.1 ⟨str "true", str "Alice"⟩ rfl,
   login_entry_points_spec.2.1 ⟨str "false", str "Alice"⟩ (by decide),
   login_entry_points_spec.2.2.1 ⟨true, [str "Bob"]⟩ (str "Bob") (by decide),
   login_entry_points_spec.2.2.2 ⟨false, []⟩ (by decide)⟩

/-! ## C8, C10: `ensure_authenticated` -/

/-- Unfolding: with a stored credential, `ensure_authenticated` adopts
its stripped contents via `login_with_phpsessid` and writes nothing. -/
theorem ensure_authenticated_some (contents : Str) (choice : InteractiveChoice)
    (portalRet : Str → Str → LoginRet) (portalCookie : Str → Str → Option Str)
    (probePage : Str → LoginStatePage) :
    ensure_authenticated (some contents) choice portalRet portalCookie probePage =
      match login_with_phpsessid (probePage (pyStrip contents)) with
      | .ok _ => ⟨.ok (pyStrip contents), some contents, false⟩
      | .error e => ⟨.error e, some contents, false⟩ := rfl

/-- Unfolding: with no stored credential and a username/password entry,
the credential exchange runs and, on success, the session cookie is
saved. -/
theorem ensure_authenticated_cred (u p : Str)
    (portalRet : Str → Str → LoginRet) (portalCookie : Str → Str → Option Str)
    (probePage : Str → LoginStatePage) :
    ensure_authenticated none (.credentials u p) portalRet portalCookie probePage =
      match login_with_username_and_password (portalRet u p) with
      | .error e => ⟨.error e, none, true⟩
      | .ok _ =>
          match portalCookie u p with
          | none => ⟨.error (.keyError (str "PHPSESSID")), none, true⟩
          | some t => ⟨.ok t, store_save t none, true⟩ := rfl

/-- Unfolding: with no stored credential and a directly supplied
session token, the token is probed and, on success, saved. -/
theorem ensure_authenticated_sessid (t : Str)
    (portalRet : Str → Str → LoginRet) (portalCookie : Str → Str → Option Str)
    (probePage : Str → LoginStatePage) :
    ensure_authenticated none (.sessid t) portalRet portalCookie probePage =
      match login_with_phpsessid (probePage t) with
      | .error e => ⟨.error e, none, true⟩
      | .ok _ => ⟨.ok t, store_save t none, true⟩ := rfl

/-- C8 (confirmed): under the portal's markup contract (probe pages with
the `login` element carry profile text; an accepted credential exchange
sets a whitespace-free session cookie; an interactively supplied token
is whitespace-free), `ensure_authenticated` either succeeds with the
active session token loadable from the store, or propagates a
`LoginFailed`; a stored credential is adopted without the interactive
flow, and otherwise the interactive flow's token is what gets saved. -/
theorem ensure_authenticated_spec (store : Store) (choice : InteractiveChoice)
    (portalRet : Str → Str → LoginRet) (portalCookie : Str → Str → Option Str)
    (probePage : Str → LoginStatePage)
    (hprobe : ∀ t, (probePage t).loginElems = true → (probePage t).profileTexts ≠ [])
    (hcookie : ∀ u p, (portalRet u p).status = str "true" → portalCookie u p ≠ none)
    (hcookieclean : ∀ u p t, portalCookie u p = some t → noOuterSpace t = true)
    (hchoice : ∀ t, choice = .sessid t → noOuterSpace t = true) :
    ((∃ tok,
        (ensure_authenticated store choice portalRet portalCookie probePage).result =
          .ok tok ∧
        store_load
          (ensure_authenticated store choice portalRet portalCookie probePage).store =
          some tok) ∨
     (∃ e,
        (ensure_authenticated store choice portalRet portalCookie probePage).result =
          .error e ∧
        e.isLoginFailed = true)) ∧
    (∀ c, store = some c →
      (ensure_authenticated store choice portalRet portalCookie probePage).usedInteractive
        = false ∧
      ((ensure_authenticated store choice portalRet portalCookie probePage).result.isOk →
        (ensure_authenticated store choice portalRet portalCookie probePage).result =
          .ok (pyStrip c))) ∧
    (store = none → ∀ tok,
      (ensure_authenticated store choice portalRet portalCookie probePage).result =
        .ok tok →
      (ensure_authenticated store choice portalRet portalCookie probePage).store =
        store_save tok none ∧
      (ensure_authenticated store choice portalRet portalCookie probePage).usedInteractive
        = true) := by
  cases store with
  | some contents =>
      rw [ensure_authenticated_some]
      by_cases hl : (probePage (pyStrip contents)).loginElems
      · have hgs := gls_name _ hl (hprobe _ hl)
        have hlp := lwp_of_some _ _ hgs
        rw [hlp]
        refine ⟨Or.inl ⟨pyStrip contents, rfl, rfl⟩, ?_, ?_⟩
        · intro c hc
          exact ⟨rfl, fun _ => by
            injection hc with hc2
            rw [hc2]⟩
        · intro h
          cases h
      · have hgs := gls_not_logged_in _ (by simpa using hl)
        have hlp := lwp_of_none _ hgs
        rw [hlp]
        refine ⟨Or.inr ⟨_, rfl, rfl⟩, ?_, ?_⟩
        · intro c hc
          exact ⟨rfl, fun hok => by cases hok⟩
        · intro h
          cases h
  | none =>
      cases choice with
      | credentials u p =>
          rw [ensure_authenticated_cred]
          by_cases hst : (portalRet u p).status = str "true"
          · rw [lwup_ok _ hst]
            cases hpc : portalCookie u p with
            | none => exact absurd hpc (hcookie u p hst)
            | some t =>
                refine ⟨Or.inl ⟨t, rfl, ?_⟩, ?_, ?_⟩
                · show some (pyStrip (t ++ str "\n")) = some t
                  rw [pyStrip_append_newline t (hcookieclean u p t hpc)]
                · intro c hc
                  cases hc
                · intro _ tok htok
                  injection htok with h2
                  rw [h2]
                  exact ⟨rfl, rfl⟩
          · rw [lwup_fail _ hst]
            refine ⟨Or.inr ⟨_, rfl, rfl⟩, ?_, ?_⟩
            · intro c hc
              cases hc
            · intro _ tok htok
              cases htok
      | sessid t =>
          rw [ensure_authenticated_sessid]
          by_cases hl : (probePage t).loginElems
          · have hgs := gls_name _ hl (hprobe _ hl)
            have hlp := lwp_of_some _ _ hgs
            rw [hlp]
            refine ⟨Or.inl ⟨t, rfl, ?_⟩, ?_, ?_⟩
            · show some (pyStrip (t ++ str "\n")) = some t
              rw [pyStrip_append_newline t (hchoice t rfl)]
            · intro c hc
              cases hc
            · intro _ tok htok
              injection htok with h2
              rw [h2]
              exact ⟨rfl, rfl⟩
          · have hgs := gls_not_logged_in _ (by simpa using hl)
            have hlp := lwp_of_none _ hgs
            rw [hlp]
            refine ⟨Or.inr ⟨_, rfl, rfl⟩, ?_, ?_⟩
            · intro c hc
              cases hc
            · intro _ tok htok
              cases htok

/-- Stub portal for concrete authentication runs: every credential pair
is accepted with name `"A"` and session cookie `"c"`. -/
def stubPortalRet : Str → Str → LoginRet := fun _ _ => ⟨str "true", str "A"⟩

/-- Stub cookie for concrete authentication runs. -/
def stubPortalCookie : Str → Str → Option Str := fun _ _ => some (str "c")

/-- Stub probe page that accepts every session token as user `"Bob"`. -/
def stubProbePage : Str → LoginStatePage := fun _ => ⟨true, [str "Bob"]⟩

/-- C8 (witness): a concrete fresh interactive run with a directly
supplied session token against the stub portal. -/
theorem ensure_authenticated_spec_witness :
    ((∃ tok,
        (ensure_authenticated none (.sessid (str "tok"))
            stubPortalRet stubPortalCookie stubProbePage).result = .ok tok ∧
        store_load
          (ensure_authenticated none (.sessid (str "tok"))
              stubPortalRet stubPortalCookie stubProbePage).store = some tok) ∨
     (∃ e,
        (ensure_authenticated none (.sessid (str "tok"))
            stubPortalRet stubPortalCookie stubProbePage).result = .error e ∧
        e.isLoginFailed = true)) ∧
    (∀ c, (none : Store) = some c →
      (ensure_authenticated none (.sessid (str "tok"))
          stubPortalRet stubPortalCookie stubProbePage).usedInteractive = false ∧
      ((ensure_authenticated none (.sessid (str "tok"))
            stubPortalRet stubPortalCookie stubProbePage).result.isOk →
        (ensure_authenticated none (.sessid (str "tok"))
            stubPortalRet stubPortalCookie stubProbePage).result =
          .ok (pyStrip c))) ∧
    ((none : Store) = none → ∀ tok,
      (ensure_authenticated none (.sessid (str "tok"))
          stubPortalRet stubPortalCookie stubProbePage).result = .ok tok →
      (ensure_authenticated none (.sessid (str "tok"))
          stubPortalRet stubPortalCookie stubProbePage).store = store_save tok none ∧
      (ensure_authenticated none (.sessid (str "tok"))
          stubPortalRet stubPortalCookie stubProbePage).usedInteractive = true) :=
  ensure_authenticated_spec none (.sessid (str "tok"))
    stubPortalRet stubPortalCookie stubProbePage
    (fun t h => by simp [stubProbePage])
    (fun u p h => by simp [stubPortalCookie])
    (fun u p t h => by
      injection h with h2
      subst h2
      decide)
    (fun t h => by
      injection h with h2
      subst h2
      decide)

/-- C10 (confirmed): when the credentials file exists and the portal
rejects the saved token (the probe reports "not logged in"),
`ensure_authenticated` propagates `LoginFailed`, leaves the credentials
file exactly as it was, and never runs the interactive flow. -/
theorem ensure_authenticated_stale (contents : Str) (choice : InteractiveChoice)
    (portalRet : Str → Str → LoginRet) (portalCookie : Str → Str → Option Str)
    (probePage : Str → LoginStatePage)
    (hreject : get_login_state (probePage (pyStrip contents)) = .ok none) :
    (ensure_authenticated (some contents) choice portalRet portalCookie
        probePage).result =
      .error (.loginFailedMsg (str "cannot login with provided PHPSESSID")) ∧
    (ensure_authenticated (some contents) choice portalRet portalCookie
        probePage).store = some contents ∧
    (ensure_authenticated (some contents) choice portalRet portalCookie
        probePage).usedInteractive = false := by
  rw [ensure_authenticated_some, lwp_of_none _ hreject]
  exact ⟨rfl, rfl, rfl⟩

/-- C10 (witness): a stale saved token rejected by a concrete probe,
with an interactive credential pair available that is never consulted. -/
theorem ensure_authenticated_stale_witness :
    (ensure_authenticated (some (str "stale\n")) (.credentials (str "u") (str "p"))
        stubPortalRet stubPortalCookie (fun _ => ⟨false, []⟩)).result =
      .error (.loginFailedMsg (str "cannot login with provided PHPSESSID")) ∧
    (ensure_authenticated (some (str "stale\n")) (.credentials (str "u") (str "p"))
        stubPortalRet stubPortalCookie (fun _ => ⟨false, []⟩)).store =
      some (str "stale\n") ∧
    (ensure_authenticated (some (str "stale\n")) (.credentials (str "u") (str "p"))
        stubPortalRet stubPortalCookie (fun _ => ⟨false, []⟩)).usedInteractive =
      false :=
  ensure_authenticated_stale (str "stale\n") (.credentials (str "u") (str "p"))
    stubPortalRet stubPortalCookie (fun _ => ⟨false, []⟩) (by decide)

/-! ## C5: course lookup -/

/-- C5 (confirmed): on a response whose breadcrumb parses, `get_course`
distinguishes three outcomes — empty body raises the "probably doesn't
exist" `UserError`; a final URL redirected to the course-login gate
raises the distinct "no access" `UserError`; otherwise it returns the
`Course` whose name is the breadcrumb text and whose admin flag is the
presence of the "add" control. -/
theorem get_course_trichotomy (cid : Int) (r : CourseResponse) (name : Str) :
    (r.bodyEmpty = true →
      get_course cid r = .error (.userError (emptyCourseMsg cid))) ∧
    (r.bodyEmpty = false → r.infoPathTexts = [name] →
      r.urlPath = str "/course_login.php" →
      get_course cid r =
          .error (.userError (noAccessMsg ⟨cid, name, r.hasAddLink⟩)) ∧
        noAccessMsg ⟨cid, name, r.hasAddLink⟩ ≠ emptyCourseMsg cid) ∧
    (r.bodyEmpty = false → r.infoPathTexts = [name] →
      r.urlPath ≠ str "/course_login.php" →
      get_course cid r = .ok ⟨cid, name, r.hasAddLink⟩) := by
  refine ⟨fun h => ?_, fun h h2 h3 => ⟨?_, ?_⟩, fun h h2 h3 => ?_⟩
  · simp [get_course, h]
  · simp [get_course, h, h2, h3, unpack1]
  · intro heq
    have h1 : (noAccessMsg ⟨cid, name, r.hasAddLink⟩).head? = some 'N' := rfl
    have h2e : (emptyCourseMsg cid).head? = some 'E' := rfl
    rw [heq] at h1
    exact absurd (h1.symm.trans h2e) (by decide)
  · simp [get_course, h, h2, h3, unpack1]

/-- C5 (witness): the three outcomes at a concrete course id. -/
theorem get_course_trichotomy_witness :
    get_course 5 ⟨true, [], false, str "/course.php"⟩ =
      .error (.userError (emptyCourseMsg 5)) ∧
    get_course 5 ⟨false, [str "X"], false, str "/course_login.php"⟩ =
      .error (.userError (noAccessMsg ⟨5, str "X", false⟩)) ∧
    get_course 5 ⟨false, [str "X"], true, str "/course.php"⟩ =
      .ok ⟨5, str "X", true⟩ :=
  ⟨(get_course_trichotomy 5 ⟨true, [], false, str "/course.php"⟩ (str "X")).1 rfl,
   ((get_course_trichotomy 5 ⟨false, [str "X"], false, str "/course_login.php"⟩
      (str "X")).2.1 rfl rfl rfl).1,
   (get_course_trichotomy 5 ⟨false, [str "X"], true, str "/course.php"⟩
      (str "X")).2.2 rfl rfl (by decide)⟩

/-! ## C4: malformed extractor rows -/

/-- Unpacking a list whose length is not one raises `ValueError`. -/
theorem unpack1_error_of_length {α : Type} (l : List α) (h : l.length ≠ 1) :
    unpack1 l = .error (.valueError (str "unpack")) := by
  match l with
  | [] => rfl
  | [a] => simp at h
  | a :: b :: t => rfl

/-- The error of a failed unpack is never `CannotUnderstand`. -/
theorem unpack1_error_not_cu {α : Type} (l : List α) (e : PyError)
    (h : unpack1 l = .error e) : e.isCannotUnderstand = false := by
  match l with
  | [] =>
      injection h with h2
      rw [← h2]
      rfl
  | [a] => nomatch h
  | a :: b :: t =>
      injection h with h2
      rw [← h2]
      rfl

/-- The error of a failed `qs_get` is never `CannotUnderstand`. -/
theorem qs_get_error_not_cu (url : Url) (key : Str) (e : PyError)
    (h : qs_get url key = .error e) : e.isCannotUnderstand = false := by
  unfold qs_get at h
  cases hl : url.lookup key with
  | some v =>
      rw [hl] at h
      nomatch h
  | none =>
      rw [hl] at h
      injection h with h2
      rw [← h2]
      rfl

/-- The error of a failed `int()` is never `CannotUnderstand`. -/
theorem pyInt_error_not_cu (s : Str) (e : PyError)
    (h : pyInt s = .error e) : e.isCannotUnderstand = false := by
  unfold pyInt at h
  split at h
  all_goals
    split at h
  all_goals
    first
      | (injection h with h2
         rw [← h2]
         rfl)
      | simp at h

/-- The error of a failed announcements-row extraction is never
`CannotUnderstand`: it is an unpack `ValueError`, a `qs_get`
`KeyError`, or an `int()` `ValueError`. -/
theorem extractNewsRow_error_not_cu (c : Course) (tr : NewsRow) (e : PyError)
    (h : extractNewsRow c tr = .error e) : e.isCannotUnderstand = false := by
  unfold extractNewsRow at h
  cases h1 : unpack1 tr.hrefs with
  | error e1 =>
      simp only [h1] at h
      injection h with h2
      rw [← h2]
      exact unpack1_error_not_cu _ _ h1
  | ok href =>
      simp only [h1] at h
      cases h2 : unpack1 tr.titles with
      | error e2 =>
          simp only [h2] at h
          injection h with h3
          rw [← h3]
          exact unpack1_error_not_cu _ _ h2
      | ok title =>
          simp only [h2] at h
          cases h3 : qs_get href (str "newsID") with
          | error e3 =>
              simp only [h3] at h
              injection h with h4
              rw [← h4]
              exact qs_get_error_not_cu _ _ _ h3
          | ok sID =>
              simp only [h3] at h
              cases h4 : pyInt sID with
              | error e4 =>
                  simp only [h4] at h
                  injection h with h5
                  rw [← h5]
                  exact pyInt_error_not_cu _ _ h4
              | ok i =>
                  simp only [h4] at h
                  nomatch h

/-- A row whose `td[1]/a/@href` query does not match exactly one href
makes the announcements extractor raise. -/
theorem extractNewsRow_error_of_bad_href (c : Course) (tr : NewsRow)
    (h : tr.hrefs.length ≠ 1) : ∃ e, extractNewsRow c tr = .error e := by
  refine ⟨.valueError (str "unpack"), ?_⟩
  unfold extractNewsRow
  rw [unpack1_error_of_length tr.hrefs h]

/-- A row whose `td[2]//a/text()` query does not match exactly one text
node makes the announcements extractor raise. -/
theorem extractNewsRow_error_of_bad_title (c : Course) (tr : NewsRow)
    (h : tr.titles.length ≠ 1) : ∃ e, extractNewsRow c tr = .error e := by
  cases h1 : unpack1 tr.hrefs with
  | error e1 =>
      refine ⟨e1, ?_⟩
      unfold extractNewsRow
      rw [h1]
  | ok href =>
      refine ⟨.valueError (str "unpack"), ?_⟩
      unfold extractNewsRow
      rw [h1, unpack1_error_of_length tr.titles h]

/-- A row whose single href lacks the `newsID` query parameter makes
the announcements extractor raise. -/
theorem extractNewsRow_error_of_no_id (c : Course) (tr : NewsRow) (href : Url)
    (h : tr.hrefs = [href]) (hk : href.lookup (str "newsID") = none) :
    ∃ e, extractNewsRow c tr = .error e := by
  have hu : unpack1 tr.hrefs = .ok href := by rw [h]; rfl
  have hq : qs_get href (str "newsID") = .error (.keyError (str "newsID")) := by
    unfold qs_get
    rw [hk]
  cases h2 : unpack1 tr.titles with
  | error e2 =>
      refine ⟨e2, ?_⟩
      simp only [extractNewsRow, hu, h2]
  | ok title =>
      refine ⟨.keyError (str "newsID"), ?_⟩
      simp only [extractNewsRow, hu, h2, hq]

/-- A discussions row without exactly one href makes the discussions
extractor raise, the same way. -/
theorem extractForumRow_error_of_bad_href (c : Course) (tr : ForumRow)
    (h : tr.hrefs.length ≠ 1) : ∃ e, extractForumRow c tr = .error e := by
  refine ⟨.valueError (str "unpack"), ?_⟩
  unfold extractForumRow
  rw [unpack1_error_of_length tr.hrefs h]

/-- A discussions row whose `td[2]//a/span/text()` query does not match
exactly one text node makes the discussions extractor raise. -/
theorem extractForumRow_error_of_bad_title (c : Course) (tr : ForumRow)
    (h : tr.spanTitles.length ≠ 1) : ∃ e, extractForumRow c tr = .error e := by
  cases h1 : unpack1 tr.hrefs with
  | error e1 =>
      refine ⟨e1, ?_⟩
      unfold extractForumRow
      rw [h1]
  | ok href =>
      refine ⟨.valueError (str "unpack"), ?_⟩
      unfold extractForumRow
      rw [h1, unpack1_error_of_length tr.spanTitles h]

/-- A discussions row whose single href lacks the `tid` query parameter
makes the discussions extractor raise. -/
theorem extractForumRow_error_of_no_id (c : Course) (tr : ForumRow) (href : Url)
    (h : tr.hrefs = [href]) (hk : href.lookup (str "tid") = none) :
    ∃ e, extractForumRow c tr = .error e := by
  have hu : unpack1 tr.hrefs = .ok href := by rw [h]; rfl
  have hq : qs_get href (str "tid") = .error (.keyError (str "tid")) := by
    unfold qs_get
    rw [hk]
  cases h2 : unpack1 tr.spanTitles with
  | error e2 =>
      refine ⟨e2, ?_⟩
      simp only [extractForumRow, hu, h2]
  | ok title =>
      refine ⟨.keyError (str "tid"), ?_⟩
      simp only [extractForumRow, hu, h2, hq]

/-- The error of a failed discussions-row extraction is never
`CannotUnderstand`: it is an unpack `ValueError`, a `qs_get`
`KeyError`, or an `int()` `ValueError`. -/
theorem extractForumRow_error_not_cu (c : Course) (tr : ForumRow) (e : PyError)
    (h : extractForumRow c tr = .error e) : e.isCannotUnderstand = false := by
  unfold extractForumRow at h
  cases h1 : unpack1 tr.hrefs with
  | error e1 =>
      simp only [h1] at h
      injection h with h2
      rw [← h2]
      exact unpack1_error_not_cu _ _ h1
  | ok href =>
      simp only [h1] at h
      cases h2 : unpack1 tr.spanTitles with
      | error e2 =>
          simp only [h2] at h
          injection h with h3
          rw [← h3]
          exact unpack1_error_not_cu _ _ h2
      | ok title =>
          simp only [h2] at h
          cases h3 : qs_get href (str "tid") with
          | error e3 =>
              simp only [h3] at h
              injection h with h4
              rw [← h4]
              exact qs_get_error_not_cu _ _ _ h3
          | ok sID =>
              simp only [h3] at h
              cases h4 : pyInt sID with
              | error e4 =>
                  simp only [h4] at h
                  injection h with h5
                  rw [← h5]
                  exact pyInt_error_not_cu _ _ h4
              | ok i =>
                  simp only [h4] at h
                  nomatch h

/-- A raising item makes the whole page extraction raise: nothing is
skipped. -/
theorem mapExcept_error_of_mem {α β : Type} (f : α → Except PyError β)
    (l : List α) (a : α) (ha : a ∈ l) (he : ∃ e, f a = .error e) :
    ∃ e2, mapExcept f l = .error e2 := by
  induction l with
  | nil => cases ha
  | cons b t ih =>
      cases hfb : f b with
      | error e => exact ⟨e, by simp only [mapExcept, hfb]⟩
      | ok v =>
          rcases List.mem_cons.mp ha with h1 | h1
          · obtain ⟨e, he⟩ := he
            rw [h1, hfb] at he
            nomatch he
          · obtain ⟨e2, h2⟩ := ih h1
            exact ⟨e2, by simp only [mapExcept, hfb, h2]⟩

/-- A materials row with no `td[2]/div/a` anchor is invisible to the
materials extractor. -/
theorem get_materials_skip (c : Course) (pre post : List MatRow) :
    get_materials c (pre ++ ⟨[]⟩ :: post) = get_materials c (pre ++ post) := by
  unfold get_materials
  congr 1
  simp [List.flatMap_append]

/-- A homework row with no `td[2]` anchor is invisible to the homework
extractor. -/
theorem get_homeworks_skip (c : Course) (pre post : List HwRow) :
    get_homeworks c (pre ++ ⟨none⟩ :: post) = get_homeworks c (pre ++ post) := by
  unfold get_homeworks
  congr 1
  simp [List.filterMap_append, List.filterMap_cons]

/-- C4 (counterexample): a materials row lacking the id-bearing anchor
is silently skipped — the extraction succeeds with no record and no
`CannotUnderstand` — and an announcements row lacking the link raises a
`ValueError` (failed tuple unpacking), not `CannotUnderstand`. -/
theorem extractors_claim_cex :
    get_materials ⟨1, str "c", false⟩ [⟨[]⟩] = .ok [] ∧
    get_announcements ⟨1, str "c", false⟩ [⟨[], [str "t"]⟩] =
      .error (.valueError (str "unpack")) ∧
    (PyError.valueError (str "unpack")).isCannotUnderstand = false :=
  ⟨rfl, rfl, rfl⟩

/-- C4 (amended): for announcements and discussions a malformed row (no
single id link, no single title, or missing id parameter) raises a hard
error — a `ValueError` or `KeyError`, never `CannotUnderstand` — and a
raising row aborts the page rather than being skipped; for materials
and homework, a row lacking the expected anchor matches no xpath result
and is silently skipped. -/
theorem extractors_malformed_spec :
    (∀ (c : Course) (tr : NewsRow), tr.hrefs.length ≠ 1 →
      ∃ e, extractNewsRow c tr = .error e) ∧
    (∀ (c : Course) (tr : NewsRow), tr.titles.length ≠ 1 →
      ∃ e, extractNewsRow c tr = .error e) ∧
    (∀ (c : Course) (tr : NewsRow) (href : Url), tr.hrefs = [href] →
      href.lookup (str "newsID") = none →
      ∃ e, extractNewsRow c tr = .error e) ∧
    (∀ (c : Course) (rows : List NewsRow) (tr : NewsRow), tr ∈ rows →
      (∃ e, extractNewsRow c tr = .error e) →
      ∃ e2, get_announcements c rows = .error e2) ∧
    (∀ (c : Course) (tr : NewsRow) (e : PyError),
      extractNewsRow c tr = .error e → e.isCannotUnderstand = false) ∧
    (∀ (c : Course) (tr : ForumRow), tr.hrefs.length ≠ 1 →
      ∃ e, extractForumRow c tr = .error e) ∧
    (∀ (c : Course) (tr : ForumRow), tr.spanTitles.length ≠ 1 →
      ∃ e, extractForumRow c tr = .error e) ∧
    (∀ (c : Course) (tr : ForumRow) (href : Url), tr.hrefs = [href] →
      href.lookup (str "tid") = none →
      ∃ e, extractForumRow c tr = .error e) ∧
    (∀ (c : Course) (rows : List ForumRow) (tr : ForumRow), tr ∈ rows →
      (∃ e, extractForumRow c tr = .error e) →
      ∃ e2, get_discussions c rows = .error e2) ∧
    (∀ (c : Course) (tr : ForumRow) (e : PyError),
      extractForumRow c tr = .error e → e.isCannotUnderstand = false) ∧
    (∀ (c : Course) (pre post : List MatRow),
      get_materials c (pre ++ ⟨[]⟩ :: post) = get_materials c (pre ++ post)) ∧
    (∀ (c : Course) (pre post : List HwRow),
      get_homeworks c (pre ++ ⟨none⟩ :: post) = get_homeworks c (pre ++ post)) :=
  ⟨extractNewsRow_error_of_bad_href,
   extractNewsRow_error_of_bad_title,
   extractNewsRow_error_of_no_id,
   fun c rows tr ha he => mapExcept_error_of_mem (extractNewsRow c) rows tr ha he,
   extractNewsRow_error_not_cu,
   extractForumRow_error_of_bad_href,
   extractForumRow_error_of_bad_title,
   extractForumRow_error_of_no_id,
   fun c rows tr ha he => mapExcept_error_of_mem (extractForumRow c) rows tr ha he,
   extractForumRow_error_not_cu,
   get_materials_skip,
   get_homeworks_skip⟩

/-- C4 (witness): the amended behaviours at concrete malformed rows for
each of the four extractors. -/
theorem extractors_malformed_spec_witness :
    (∃ e, extractNewsRow ⟨1, str "c", false⟩ ⟨[], [str "t"]⟩ = .error e) ∧
    (∃ e, extractNewsRow ⟨1, str "c", false⟩ ⟨[[(str "x", str "1")]], []⟩ = .error e) ∧
    (∃ e, extractNewsRow ⟨1, str "c", false⟩
        ⟨[[(str "x", str "1")]], [str "t"]⟩ = .error e) ∧
    (∃ e2, get_announcements ⟨1, str "c", false⟩ [⟨[], [str "t"]⟩] = .error e2) ∧
    (PyError.valueError (str "unpack")).isCannotUnderstand = false ∧
    (∃ e, extractForumRow ⟨1, str "c", false⟩ ⟨[], [str "t"]⟩ = .error e) ∧
    (∃ e, extractForumRow ⟨1, str "c", false⟩ ⟨[[(str "x", str "1")]], []⟩ = .error e) ∧
    (∃ e, extractForumRow ⟨1, str "c", false⟩
        ⟨[[(str "x", str "1")]], [str "t"]⟩ = .error e) ∧
    (∃ e2, get_discussions ⟨1, str "c", false⟩ [⟨[], [str "t"]⟩] = .error e2) ∧
    (PyError.keyError (str "tid")).isCannotUnderstand = false ∧
    get_materials ⟨1, str "c", false⟩ ([] ++ ⟨[]⟩ :: []) =
      get_materials ⟨1, str "c", false⟩ ([] ++ []) ∧
    get_homeworks ⟨1, str "c", false⟩ ([] ++ ⟨none⟩ :: []) =
      get_homeworks ⟨1, str "c", false⟩ ([] ++ []) :=
  ⟨extractors_malformed_spec.1 _ _ (by decide),
   extractors_malformed_spec.2.1 _ _ (by decide),
   extractors_malformed_spec.2.2.1 _ _ [(str "x", str "1")] rfl (by decide),
   extractors_malformed_spec.2.2.2.1 _ [⟨[], [str "t"]⟩] ⟨[], [str "t"]⟩
     (List.mem_singleton.mpr rfl)
     (extractors_malformed_spec.1 _ _ (by decide)),
   extractors_malformed_spec.2.2.2.2.1 ⟨1, str "c", false⟩ ⟨[], [str "t"]⟩ _ rfl,
   extractors_malformed_spec.2.2.2.2.2.1 _ _ (by decide),
   extractors_malformed_spec.2.2.2.2.2.2.1 _ _ (by decide),
   extractors_malformed_spec.2.2.2.2.2.2.2.1 _ _ [(str "x", str "1")] rfl (by decide),
   extractors_malformed_spec.2.2.2.2.2.2.2.2.1 _ [⟨[], [str "t"]⟩] ⟨[], [str "t"]⟩
     (List.mem_singleton.mpr rfl)
     (extractors_malformed_spec.2.2.2.2.2.1 _ _ (by decide)),
   extractors_malformed_spec.2.2.2.2.2.2.2.2.2.1 ⟨1, str "c", false⟩
     ⟨[[(str "x", str "1")]], [str "t"]⟩ _ rfl,
   extractors_malformed_spec.2.2.2.2.2.2.2.2.2.2.1 _ [] [],
   extractors_malformed_spec.2.2.2.2.2.2.2.2.2.2.2 _ [] []⟩

end Ilmsdump
